import Mathlib

/-!
Verification of the redgrease directory watcher (src/src/watcher.py): the
registration reconciliation protocol (`register_script` / `unregister_script`),
the file-system event classifier (`on_modified` / `on_deleted` / `on_moved`
wired into a pattern-matching dispatcher), and the hysteresis (debounce) index
driving them.

Modelling conventions:
* The Redis connection is an external collaborator.  Each remote command a run
  can issue is scripted by the environment: `RG.DUMPREGISTRATIONS` before and
  after the `RG.PYEXECUTE` call and the `RG.UNREGISTER` behaviour are fields of
  `RemoteEnv`, each either a value or a raised exception (`Except PyExc`).
  The key-value primitives (`hget` / `hset` / `delete`) act on an explicit
  association-list store and are modelled as always completing.
* Python exceptions are explicit: `redis.exceptions.ResponseError` is the one
  exception class `unregister_script` catches; everything else is
  `PyExc.otherError` and propagates exactly where the Python code lets it.
* Python `set` values are modelled as deduplicated lists; `set.pop()` removes
  an arbitrary element, so the model takes the choice function `pop` as part of
  the environment and theorems assume only membership of the popped element.
* Every run returns the list of remote calls issued and the log records
  emitted (level and message tag), so "performs zero remote calls" and
  "logs at debug level only" are properties of the run result.
-/

namespace Redgrease

/-- File path (script or requirements file). -/
abbrev FPath := String

/-- Opaque registration identity assigned by the Redis Gears engine. -/
abbrev RegId := String

/-- The configuration fields the core logic reads.  `indexPre` models
`config.index_prefix` (the Redis key namespace put in front of the file path);
the two patterns and the ignore list model `config.script_pattern`,
`config.requirements_pattern` and `config.ignore`. -/
structure Config where
  indexPre : String
  script_pattern : String
  requirements_pattern : String
  ignore : List String
deriving Repr, DecidableEq

/-- The hash stored under the index key of a script: fields
`registration_id` and `last_updated` written by `redis.hset` in
`register_script`. -/
structure RegRecord where
  registration_id : RegId
  last_updated : String
deriving Repr, DecidableEq

/-- The key-value store holding the registration records, as an association
list from Redis key to record. -/
abbrev Store := List (String × RegRecord)

/-- Reading the record hash at a key (`redis.hget key registration_id`
returning `None` when the hash is absent). -/
def storeGet (st : Store) (k : String) : Option RegRecord :=
  (st.find? (fun e => e.1 == k)).map Prod.snd

/-- Writing the record hash at a key (`redis.hset key mapping=...`),
overwriting any previous record. -/
def storeSet (st : Store) (k : String) (v : RegRecord) : Store :=
  (k, v) :: st.filter (fun e => !(e.1 == k))

/-- Deleting the hash at a key (`redis.delete key`); idempotent. -/
def storeDelete (st : Store) (k : String) : Store :=
  st.filter (fun e => !(e.1 == k))

/-- The Redis key of a script's registration record:
`f"{config.index_prefix}{script_path}"`. -/
def reg_key (cfg : Config) (script_path : FPath) : String :=
  cfg.indexPre ++ script_path

/-- A Python exception raised by a remote command: either a
`redis.exceptions.ResponseError` (the command was rejected by the server) or
any other exception (connection failure, timeout, ...). -/
inductive PyExc
  | responseError (msg : String)
  | otherError (msg : String)
deriving Repr, DecidableEq

/-- One remote (Redis) call issued during a run. -/
inductive RemoteCall
  | hget (key : String)
  | rgUnregister (id : RegId)
  | kvDelete (key : String)
  | dumpRegistrations
  | pyexecute (unblocking : Bool)
  | hset (key : String) (id : RegId) (ts : String)
deriving Repr, DecidableEq

/-- Python logging levels used by the watcher. -/
inductive LogLevel
  | debug
  | info
  | warning
  | error
deriving Repr, DecidableEq

/-- Which log statement of the watcher emitted a record. -/
inductive LogTag
  | registering
  | generalFailure
  | unregistering
  | removingRegistration
  | unregFailedWarning
  | unregError
  | runningScript
  | preRegs
  | postRegs
  | scriptRegistered
  | scriptExecuted
  | corruptWarning
  | caughtError
deriving Repr, DecidableEq

/-- One emitted log record: its level and the statement that produced it. -/
structure LogEntry where
  level : LogLevel
  tag : LogTag
deriving Repr, DecidableEq

/-- Result of one `unregister_script` run: the exception it propagated (if
any), the final store, the remote calls issued and the log records emitted,
in order. -/
structure UnregResult where
  err : Option PyExc
  store : Store
  calls : List RemoteCall
  logs : List LogEntry
deriving Repr, DecidableEq

/-- The `unregister_script` function of the watcher.  `unregRemote` scripts
the behaviour of `redis.execute_command('RG.UNREGISTER', reg_id)`.  Following
the source: read `registration_id` at the index key; when present, issue
`RG.UNREGISTER` and catch only `ResponseError` (logging a warning and an
error record); any other exception propagates before `redis.delete` runs;
otherwise the index key is unconditionally deleted. -/
def unregister_script (cfg : Config) (unregRemote : RegId → Except PyExc Unit)
    (st : Store) (script_path : FPath) : UnregResult :=
  let key := reg_key cfg script_path
  match storeGet st key with
  | none =>
      { err := none
        store := storeDelete st key
        calls := [RemoteCall.hget key, RemoteCall.kvDelete key]
        logs := [⟨LogLevel.debug, LogTag.unregistering⟩] }
  | some rec =>
      match unregRemote rec.registration_id with
      | Except.ok _ =>
          { err := none
            store := storeDelete st key
            calls := [RemoteCall.hget key,
                      RemoteCall.rgUnregister rec.registration_id,
                      RemoteCall.kvDelete key]
            logs := [⟨LogLevel.debug, LogTag.unregistering⟩,
                     ⟨LogLevel.debug, LogTag.removingRegistration⟩] }
      | Except.error (PyExc.responseError _) =>
          { err := none
            store := storeDelete st key
            calls := [RemoteCall.hget key,
                      RemoteCall.rgUnregister rec.registration_id,
                      RemoteCall.kvDelete key]
            logs := [⟨LogLevel.debug, LogTag.unregistering⟩,
                     ⟨LogLevel.debug, LogTag.removingRegistration⟩,
                     ⟨LogLevel.warning, LogTag.unregFailedWarning⟩,
                     ⟨LogLevel.error, LogTag.unregError⟩] }
      | Except.error (PyExc.otherError m) =>
          { err := some (PyExc.otherError m)
            store := st
            calls := [RemoteCall.hget key,
                      RemoteCall.rgUnregister rec.registration_id]
            logs := [⟨LogLevel.debug, LogTag.unregistering⟩,
                     ⟨LogLevel.debug, LogTag.removingRegistration⟩] }

/-- How a `register_script` run can fail visibly to its caller: the two
validation exceptions raised through `fail` (`FileNotFoundError`, `IOError`
for an empty file) and an exception propagated out of the pre-clean
`unregister_script` call, which sits outside the `try` block. -/
inductive RegError
  | fileNotFound
  | emptyFile
  | propagated (e : PyExc)
deriving Repr, DecidableEq

/-- Result of one `register_script` run, in the same shape as
`UnregResult`. -/
structure RegResult where
  err : Option RegError
  store : Store
  calls : List RemoteCall
  logs : List LogEntry
deriving Repr, DecidableEq

/-- A dumped registration entry: `RG.DUMPREGISTRATIONS` returns a list of
sequences and the source reads `reg[1]`, the registration identity; the rest
of the entry is irrelevant to the watcher and modelled as `Unit`. -/
abbrev DumpEntry := Unit × RegId

/-- The scripted behaviour of the remote engine during one `register_script`
run: the `RG.UNREGISTER` behaviour used by the pre-clean, the two
`RG.DUMPREGISTRATIONS` responses, the `RG.PYEXECUTE` response, the
`set.pop()` choice function and the current timestamp string
(`datetime.utcnow().strftime(iso8601_format)`). -/
structure RemoteEnv where
  unregRemote : RegId → Except PyExc Unit
  dump1 : Except PyExc (List DumpEntry)
  pyexec : Except PyExc String
  dump2 : Except PyExc (List DumpEntry)
  pop : List RegId → RegId
  now : String

/-- Python `set(...)` built from a list: deduplication (membership is all the
code observes). -/
def pySet (l : List RegId) : List RegId :=
  l.dedup

/-- Python set difference `post - pre`. -/
def setDiff (post pre : List RegId) : List RegId :=
  post.filter (fun x => decide (x ∉ pre))

/-- The watched directories' file contents, as an association list from path
to content; a path absent from the list fails the `isfile` check. -/
abbrev FileSys := List (FPath × String)

/-- Reading a file: `some content` when the path names a file. -/
def fsRead (fs : FileSys) (p : FPath) : Option String :=
  (fs.find? (fun e => e.1 == p)).map Prod.snd

/-- The body of the `try` block of `register_script` (everything after the
pre-clean `unregister_script` call): snapshot, execute, snapshot, diff,
persist.  Any raised `PyExc` is caught by the `except Exception` clause and
turned into an error-level log record.  `st1`, `calls1` and `logs1` are the
store, call trace and log trace as they stand when the `try` block is
entered. -/
def reconcile (cfg : Config) (env : RemoteEnv) (script_path : FPath)
    (unblocking : Bool) (st1 : Store) (calls1 : List RemoteCall)
    (logs1 : List LogEntry) : RegResult :=
  let logs1 := logs1 ++ [⟨LogLevel.debug, LogTag.runningScript⟩]
  let calls1 := calls1 ++ [RemoteCall.dumpRegistrations]
  match env.dump1 with
  | Except.error _ =>
      { err := none, store := st1, calls := calls1
        logs := logs1 ++ [⟨LogLevel.error, LogTag.caughtError⟩] }
  | Except.ok pre_reg =>
      let calls2 := calls1 ++ [RemoteCall.pyexecute unblocking]
      match env.pyexec with
      | Except.error _ =>
          { err := none, store := st1, calls := calls2
            logs := logs1 ++ [⟨LogLevel.error, LogTag.caughtError⟩] }
      | Except.ok _ =>
          let calls3 := calls2 ++ [RemoteCall.dumpRegistrations]
          match env.dump2 with
          | Except.error _ =>
              { err := none, store := st1, calls := calls3
                logs := logs1 ++ [⟨LogLevel.error, LogTag.caughtError⟩] }
          | Except.ok post_reg =>
              let preIds := pySet (pre_reg.map Prod.snd)
              let postIds := pySet (post_reg.map Prod.snd)
              let logs2 := logs1 ++ [⟨LogLevel.debug, LogTag.preRegs⟩,
                                     ⟨LogLevel.debug, LogTag.postRegs⟩]
              let diff_reg := setDiff postIds preIds
              if 0 < diff_reg.length then
                let reg_id := env.pop diff_reg
                let key := reg_key cfg script_path
                let st2 := storeSet st1 key ⟨reg_id, env.now⟩
                let calls4 := calls3 ++ [RemoteCall.hset key reg_id env.now]
                let logs3 := logs2 ++ [⟨LogLevel.debug, LogTag.scriptRegistered⟩]
                if 0 < diff_reg.length - 1 then
                  { err := none, store := st2, calls := calls4
                    logs := logs3 ++ [⟨LogLevel.warning, LogTag.corruptWarning⟩] }
                else
                  { err := none, store := st2, calls := calls4, logs := logs3 }
              else
                { err := none, store := st1, calls := calls3
                  logs := logs2 ++ [⟨LogLevel.debug, LogTag.scriptExecuted⟩] }

/-- The `register_script` function of the watcher.  Following the source:
validate that the path is a file and its content non-empty (`fail` logs an
error record and raises, before any remote call); run the pre-clean
`unregister_script` outside the `try` block, so an exception it propagates
leaves `register_script` as well; then run the reconciliation inside the
`try` block. -/
def register_script (cfg : Config) (fs : FileSys) (env : RemoteEnv)
    (st : Store) (script_path : FPath) (unblocking : Bool) : RegResult :=
  let logs0 := [⟨LogLevel.debug, LogTag.registering⟩]
  match fsRead fs script_path with
  | none =>
      { err := some RegError.fileNotFound, store := st, calls := []
        logs := logs0 ++ [⟨LogLevel.error, LogTag.generalFailure⟩] }
  | some script_content =>
      if script_content = "" then
        { err := some RegError.emptyFile, store := st, calls := []
          logs := logs0 ++ [⟨LogLevel.error, LogTag.generalFailure⟩] }
      else
        let u := unregister_script cfg env.unregRemote st script_path
        match u.err with
        | some e =>
            { err := some (RegError.propagated e), store := u.store
              calls := u.calls, logs := logs0 ++ u.logs }
        | none =>
            reconcile cfg env script_path unblocking u.store u.calls
              (logs0 ++ u.logs)

/-! ### Event classifier -/

/-- A raw file-system event delivered by the notification source. -/
inductive FsEvent
  | created (src : String)
  | modified (src : String)
  | deleted (src : String)
  | moved (src : String) (dest : String)
deriving Repr, DecidableEq

/-- The three deferred actions the classifier can hand to the debounce
index. -/
inductive Action
  | register
  | unregister
  | updateDependencies
deriving Repr, DecidableEq

/-- The `on_deleted` handler: a script-pattern path signals an unregister;
a requirements-pattern path is a log-only no-op (removal unsupported); any
other path is a log-only no-op.  `fnm` abstracts `fnmatch.fnmatch`. -/
def on_deleted (cfg : Config) (fnm : String → String → Bool)
    (file : String) : List (String × Action) :=
  if fnm file cfg.script_pattern then [(file, Action.unregister)]
  else []

/-- The `on_modified` handler: script pattern signals a register,
requirements pattern signals a dependency update, otherwise log-only. -/
def on_modified (cfg : Config) (fnm : String → String → Bool)
    (file : String) : List (String × Action) :=
  if fnm file cfg.script_pattern then [(file, Action.register)]
  else if fnm file cfg.requirements_pattern then
    [(file, Action.updateDependencies)]
  else []

/-- The `on_moved` handler: the source path goes through the deleted-style
chain (script pattern only; requirements is log-only), then the destination
path goes through the modified-style chain, each signalled under its own
path. -/
def on_moved (cfg : Config) (fnm : String → String → Bool)
    (old_file new_file : String) : List (String × Action) :=
  (if fnm old_file cfg.script_pattern then [(old_file, Action.unregister)]
   else [])
  ++
  (if fnm new_file cfg.script_pattern then [(new_file, Action.register)]
   else if fnm new_file cfg.requirements_pattern then
     [(new_file, Action.updateDependencies)]
   else [])

/-- The paths of an event, as inspected by the pattern-matching dispatcher
(for a `moved` event both source and destination). -/
def eventPaths : FsEvent → List String
  | FsEvent.created s => [s]
  | FsEvent.modified s => [s]
  | FsEvent.deleted s => [s]
  | FsEvent.moved s d => [s, d]

/-- The `PatternMatchingEventHandler` dispatch filter: the event is handed to
a handler only when some of its paths matches one of the two configured
patterns and none matches an ignore pattern.  (The source constructs the
handler with `case_sensitive=False`; the model uses the single abstract
matcher `fnm` for both the dispatch filter and the handlers, which the
theorems' hypotheses make immaterial.) -/
def dispatchAllowed (cfg : Config) (fnm : String → String → Bool)
    (ev : FsEvent) : Bool :=
  (eventPaths ev).any
      (fun p => fnm p cfg.script_pattern || fnm p cfg.requirements_pattern)
  && !((eventPaths ev).any (fun p => cfg.ignore.any (fun pat => fnm p pat)))

/-- The signals one raw event produces.  Only `on_deleted`, `on_modified`
and `on_moved` are assigned to the event handler in the source
(`event_handler.on_deleted = ...` and the two lines after it); `on_created`
keeps the watchdog base-class default, which does nothing, so a `created`
event produces no signal. -/
def classify (cfg : Config) (fnm : String → String → Bool)
    (ev : FsEvent) : List (String × Action) :=
  if dispatchAllowed cfg fnm ev then
    match ev with
    | FsEvent.created _ => []
    | FsEvent.modified f => on_modified cfg fnm f
    | FsEvent.deleted f => on_deleted cfg fnm f
    | FsEvent.moved o n => on_moved cfg fnm o n
  else []

/-! ### Hysteresis (debounce) index -/

/-- Modelled from the spec: one `signal(key, action, *args)` call to the
`HysteresisHandlerIndex` (the `hysteresis` module is not part of the
sources; only its construction and `signal` calls appear in the watcher).
`payload` stands for the action together with its arguments. -/
structure SignalEv (α : Type) where
  time : Nat
  key : String
  payload : α
deriving Repr, DecidableEq

/-- Modelled from the spec: the state of the hysteresis index — the pending
(key, deadline, payload) entries, at most one per key, plus the invocations
fired so far. -/
structure DbState (α : Type) where
  pending : List (String × Nat × α)
  fired : List (String × α)
deriving Repr, DecidableEq

/-- Modelled from the spec: at time `t`, every pending entry whose deadline
has been reached fires (its action is invoked once and the entry leaves the
index). -/
def fireDue {α : Type} (t : Nat) (st : DbState α) : DbState α :=
  { pending := st.pending.filter (fun e => !(decide (e.2.1 ≤ t)))
    fired := st.fired ++
      ((st.pending.filter (fun e => decide (e.2.1 ≤ t))).map
        (fun e => (e.1, e.2.2))) }

/-- Modelled from the spec: processing one `signal` call with hysteresis
duration `D` — actions already due fire first, then any pending action for
the same key is cancelled and replaced by a fresh one whose delay restarts
at the time of this call. -/
def signalStep {α : Type} (D : Nat) (st : DbState α) (e : SignalEv α) :
    DbState α :=
  let st1 := fireDue e.time st
  { pending := st1.pending.filter (fun p => !(p.1 == e.key)) ++
      [(e.key, e.time + D, e.payload)]
    fired := st1.fired }

/-- Modelled from the spec: after the last signal, quiescence — every
remaining pending action fires. -/
def debounceFinish {α : Type} (st : DbState α) : List (String × α) :=
  st.fired ++ st.pending.map (fun e => (e.1, e.2.2))

/-- Modelled from the spec: the invocations produced by a time-ordered burst
of `signal` calls followed by quiescence, for hysteresis duration `D`. -/
def debounceRun {α : Type} (D : Nat) (evs : List (SignalEv α)) :
    List (String × α) :=
  debounceFinish (evs.foldl (signalStep D) ⟨[], []⟩)

/-! ### Helper definitions for the statements -/

/-- Whether a remote call is the `RG.UNREGISTER` (remove-registration)
primitive. -/
def isRemoveCall : RemoteCall → Bool
  | RemoteCall.rgUnregister _ => true
  | _ => false

/-- Number of remove-registration calls in a call trace. -/
def countRemoves (calls : List RemoteCall) : Nat :=
  (calls.filter isRemoveCall).length

/-- Whether a remote call is the `hset` that persists a registration
record. -/
def isHset : RemoteCall → Bool
  | RemoteCall.hset _ _ _ => true
  | _ => false

/-- A sample configuration used by the concrete witnesses. -/
def cfgW : Config :=
  ⟨"/redgrease/scripts", "*.py", "*requirements*.txt", []⟩

/-- A sample remote environment whose calls all succeed, with the given
snapshot responses. -/
def envW (d1 d2 : List DumpEntry) : RemoteEnv :=
  { unregRemote := fun _ => Except.ok ()
    dump1 := Except.ok d1
    pyexec := Except.ok "0"
    dump2 := Except.ok d2
    pop := fun l => l.headD ""
    now := "2021-01-01T00:00:00.000000" }

/-- A sample pattern matcher used by the concrete witnesses: a small table
standing in for `fnmatch` on the default patterns. -/
def fnmW : String → String → Bool := fun f p =>
  (p == "*.py" && (f == "a.py" || f == "old.py")) ||
  (p == "*requirements*.txt" && f == "requirements.txt")

/-! ### Store lemmas -/

theorem storeGet_storeSet_self (st : Store) (k : String) (v : RegRecord) :
    storeGet (storeSet st k v) k = some v := by
  simp [storeGet, storeSet, List.find?]

theorem storeGet_storeDelete_self (st : Store) (k : String) :
    storeGet (storeDelete st k) k = none := by
  unfold storeGet storeDelete
  rw [List.find?_eq_none.mpr]
  · rfl
  · intro x hx
    have hpx := List.of_mem_filter hx
    simp only [Bool.not_eq_true'] at hpx
    simp [hpx]

/-! ### Lemmas about `unregister_script` -/

theorem unregister_err_none_of_no_other (cfg : Config)
    (u : RegId → Except PyExc Unit) (st : Store) (p : FPath)
    (hok : ∀ id m, u id ≠ Except.error (PyExc.otherError m)) :
    (unregister_script cfg u st p).err = none := by
  cases hg : storeGet st (reg_key cfg p) with
  | none => simp [unregister_script, hg]
  | some rec =>
      cases hu : u rec.registration_id with
      | ok _ => simp [unregister_script, hg, hu]
      | error e =>
          cases e with
          | responseError m => simp [unregister_script, hg, hu]
          | otherError m => exact absurd hu (hok rec.registration_id m)

theorem unregister_store_of_err_none (cfg : Config)
    (u : RegId → Except PyExc Unit) (st : Store) (p : FPath)
    (h : (unregister_script cfg u st p).err = none) :
    storeGet (unregister_script cfg u st p).store (reg_key cfg p) = none := by
  cases hg : storeGet st (reg_key cfg p) with
  | none =>
      simpa [unregister_script, hg] using
        storeGet_storeDelete_self st (reg_key cfg p)
  | some rec =>
      cases hu : u rec.registration_id with
      | ok _ =>
          simpa [unregister_script, hg, hu] using
            storeGet_storeDelete_self st (reg_key cfg p)
      | error e =>
          cases e with
          | responseError m =>
              simpa [unregister_script, hg, hu] using
                storeGet_storeDelete_self st (reg_key cfg p)
          | otherError m => simp [unregister_script, hg, hu] at h

theorem unregister_calls_no_hset (cfg : Config)
    (u : RegId → Except PyExc Unit) (st : Store) (p : FPath) :
    ∀ c ∈ (unregister_script cfg u st p).calls, isHset c = false := by
  cases hg : storeGet st (reg_key cfg p) with
  | none =>
      intro c hc; simp [unregister_script, hg] at hc
      rcases hc with h | h <;> simp [h, isHset]
  | some rec =>
      cases hu : u rec.registration_id with
      | ok _ =>
          intro c hc; simp [unregister_script, hg, hu] at hc
          rcases hc with h | h | h <;> simp [h, isHset]
      | error e =>
          cases e with
          | responseError m =>
              intro c hc; simp [unregister_script, hg, hu] at hc
              rcases hc with h | h | h <;> simp [h, isHset]
          | otherError m =>
              intro c hc; simp [unregister_script, hg, hu] at hc
              rcases hc with h | h <;> simp [h, isHset]

theorem unregister_no_corrupt_warning (cfg : Config)
    (u : RegId → Except PyExc Unit) (st : Store) (p : FPath) :
    (⟨LogLevel.warning, LogTag.corruptWarning⟩ : LogEntry) ∉
      (unregister_script cfg u st p).logs := by
  cases hg : storeGet st (reg_key cfg p) with
  | none => simp [unregister_script, hg]
  | some rec =>
      cases hu : u rec.registration_id with
      | ok _ => simp [unregister_script, hg, hu]
      | error e => cases e with
          | responseError m => simp [unregister_script, hg, hu]
          | otherError m => simp [unregister_script, hg, hu]

theorem unregister_logs_debug_of_ok (cfg : Config)
    (u : RegId → Except PyExc Unit) (st : Store) (p : FPath)
    (hok : ∀ id, u id = Except.ok ()) :
    ∀ e ∈ (unregister_script cfg u st p).logs, e.level = LogLevel.debug := by
  cases hg : storeGet st (reg_key cfg p) with
  | none => intro e he; simp [unregister_script, hg] at he; simp [he]
  | some rec =>
      intro e he
      simp [unregister_script, hg, hok rec.registration_id] at he
      rcases he with h | h <;> simp [h]

/-! ### Claim C5 -/

/-- C5: `register_script` on a path that is not a file raises the classified
file-not-found error, and on an existing zero-byte file raises the classified
empty-file error; in both cases it performs zero remote calls — neither the
pre-clean unregister, nor a snapshot, nor the execute primitive is invoked —
and the store is untouched. -/
theorem c5_validation_failure_no_remote_calls (cfg : Config) (fs : FileSys)
    (env : RemoteEnv) (st : Store) (p : FPath) (ub : Bool) :
    (fsRead fs p = none →
      (register_script cfg fs env st p ub).err = some RegError.fileNotFound ∧
      (register_script cfg fs env st p ub).calls = [] ∧
      (register_script cfg fs env st p ub).store = st) ∧
    (fsRead fs p = some "" →
      (register_script cfg fs env st p ub).err = some RegError.emptyFile ∧
      (register_script cfg fs env st p ub).calls = [] ∧
      (register_script cfg fs env st p ub).store = st) := by
  constructor
  · intro h
    simp [register_script, h]
  · intro h
    simp [register_script, h]

theorem c5_witness :
    ((register_script cfgW [] (envW [] []) [] "missing.py" false).err
        = some RegError.fileNotFound ∧
      (register_script cfgW [] (envW [] []) [] "missing.py" false).calls = [] ∧
      (register_script cfgW [] (envW [] []) [] "missing.py" false).store = []) ∧
    ((register_script cfgW [("a.py", "")] (envW [] []) [] "a.py" false).err
        = some RegError.emptyFile ∧
      (register_script cfgW [("a.py", "")] (envW [] []) [] "a.py" false).calls
        = [] ∧
      (register_script cfgW [("a.py", "")] (envW [] []) [] "a.py" false).store
        = []) :=
  ⟨(c5_validation_failure_no_remote_calls cfgW [] (envW [] []) []
      "missing.py" false).1 rfl,
   (c5_validation_failure_no_remote_calls cfgW [("a.py", "")] (envW [] []) []
      "a.py" false).2 rfl⟩

/-! ### Claim C6 -/

/-- C6: calling `unregister_script` twice in succession with no intervening
register performs exactly one remote remove-registration call — during the
first call and only if a RegistrationRecord existed — and leaves no
RegistrationRecord for the path.  The hypothesis restricts the remote
removal to completing (success or `ResponseError`), the situation the claim
describes. -/
theorem c6_unregister_idempotent (cfg : Config)
    (u : RegId → Except PyExc Unit) (st : Store) (p : FPath)
    (hok : ∀ id m, u id ≠ Except.error (PyExc.otherError m)) :
    countRemoves ((unregister_script cfg u st p).calls ++
        (unregister_script cfg u (unregister_script cfg u st p).store p).calls)
      = (if (storeGet st (reg_key cfg p)).isSome then 1 else 0) ∧
    storeGet (unregister_script cfg u
        (unregister_script cfg u st p).store p).store (reg_key cfg p)
      = none := by
  refine ⟨?_, unregister_store_of_err_none cfg u _ p
    (unregister_err_none_of_no_other cfg u _ p hok)⟩
  cases hg : storeGet st (reg_key cfg p) with
  | none =>
      simp [unregister_script, hg, storeGet_storeDelete_self, countRemoves,
        isRemoveCall]
  | some rec =>
      cases hu : u rec.registration_id with
      | ok _ =>
          simp [unregister_script, hg, hu, storeGet_storeDelete_self,
            countRemoves, isRemoveCall]
      | error e =>
          cases e with
          | responseError m =>
              simp [unregister_script, hg, hu, storeGet_storeDelete_self,
                countRemoves, isRemoveCall]
          | otherError m => exact absurd hu (hok rec.registration_id m)

theorem c6_witness :
    countRemoves ((unregister_script cfgW (fun _ => Except.ok ())
          [("/redgrease/scriptsa.py", ⟨"id9", "t0"⟩)] "a.py").calls ++
        (unregister_script cfgW (fun _ => Except.ok ())
          (unregister_script cfgW (fun _ => Except.ok ())
            [("/redgrease/scriptsa.py", ⟨"id9", "t0"⟩)] "a.py").store
          "a.py").calls)
      = (if (storeGet [("/redgrease/scriptsa.py", ⟨"id9", "t0"⟩)]
              (reg_key cfgW "a.py")).isSome then 1 else 0) ∧
    storeGet (unregister_script cfgW (fun _ => Except.ok ())
        (unregister_script cfgW (fun _ => Except.ok ())
          [("/redgrease/scriptsa.py", ⟨"id9", "t0"⟩)] "a.py").store
        "a.py").store (reg_key cfgW "a.py")
      = none :=
  c6_unregister_idempotent cfgW (fun _ => Except.ok ())
    [("/redgrease/scriptsa.py", ⟨"id9", "t0"⟩)] "a.py"
    (fun _ _ h => Except.noConfusion h)

/-! ### Claim C7 -/

/-- C7 counterexample: an `unregister_script` attempt in which the remote
remove-registration call raises an exception that is not a `ResponseError`
(here a connection failure) propagates before `redis.delete` runs, so the
local RegistrationRecord survives — the claim's "failed in any other way"
case does not converge to "no record". -/
theorem c7_counterexample :
    (unregister_script cfgW
        (fun _ => Except.error (PyExc.otherError "connection refused"))
        [("/redgrease/scriptsa.py", ⟨"id9", "t0"⟩)] "a.py").err
      = some (PyExc.otherError "connection refused") ∧
    storeGet (unregister_script cfgW
        (fun _ => Except.error (PyExc.otherError "connection refused"))
        [("/redgrease/scriptsa.py", ⟨"id9", "t0"⟩)] "a.py").store
      (reg_key cfgW "a.py") = some ⟨"id9", "t0"⟩ := by
  constructor <;> rfl

/-- C7 (amended): after an `unregister_script` attempt in which the remote
remove-registration call completes — it succeeds or is rejected with a
`ResponseError` such as an unknown identity (or no record existed, so it is
not issued) — the local RegistrationRecord for the path is deleted.  An
exception of any other class propagates out of `unregister_script` before
the local delete and leaves the record in place. -/
theorem c7_unregister_converges_unless_unexpected_exception (cfg : Config)
    (u : RegId → Except PyExc Unit) (st : Store) (p : FPath)
    (hok : ∀ id m, u id ≠ Except.error (PyExc.otherError m)) :
    storeGet (unregister_script cfg u st p).store (reg_key cfg p) = none :=
  unregister_store_of_err_none cfg u st p
    (unregister_err_none_of_no_other cfg u st p hok)

theorem c7_witness :
    storeGet (unregister_script cfgW (fun _ => Except.ok ())
        [("/redgrease/scriptsa.py", ⟨"id9", "t0"⟩)] "a.py").store
      (reg_key cfgW "a.py") = none :=
  c7_unregister_converges_unless_unexpected_exception cfgW
    (fun _ => Except.ok ()) [("/redgrease/scriptsa.py", ⟨"id9", "t0"⟩)]
    "a.py" (fun _ _ h => Except.noConfusion h)

/-! ### Claim C1 -/

/-- C1: when the reconciliation snapshot diff Δ around the execute call
contains exactly one new identity `i`, `register_script` persists a
RegistrationRecord under the key prefix+path whose registration identity is
`i`, together with the last-updated timestamp. -/
theorem c1_register_persists_sole_new_identity (cfg : Config) (fs : FileSys)
    (env : RemoteEnv) (st : Store) (p : FPath) (ub : Bool) (content : String)
    (pre post : List DumpEntry) (r : String) (i : RegId)
    (hfile : fsRead fs p = some content) (hne : ¬ content = "")
    (hpre : (unregister_script cfg env.unregRemote st p).err = none)
    (hd1 : env.dump1 = Except.ok pre) (hpy : env.pyexec = Except.ok r)
    (hd2 : env.dump2 = Except.ok post)
    (hdiff : setDiff (pySet (post.map Prod.snd)) (pySet (pre.map Prod.snd))
      = [i])
    (hpop : env.pop [i] = i) :
    storeGet (register_script cfg fs env st p ub).store (reg_key cfg p)
      = some ⟨i, env.now⟩ := by
  simp [register_script, hfile, hne, hpre, reconcile, hd1, hpy, hd2, hdiff,
    hpop, storeGet_storeSet_self]

theorem c1_witness :
    storeGet (register_script cfgW [("a.py", "body")]
        (envW [((), "id1")] [((), "id1"), ((), "id2")]) [] "a.py" false).store
      (reg_key cfgW "a.py")
      = some ⟨"id2", "2021-01-01T00:00:00.000000"⟩ :=
  c1_register_persists_sole_new_identity cfgW [("a.py", "body")]
    (envW [((), "id1")] [((), "id1"), ((), "id2")]) [] "a.py" false "body"
    [((), "id1")] [((), "id1"), ((), "id2")] "0" "id2"
    rfl (by decide) rfl rfl rfl rfl rfl rfl

/-! ### Claim C3 -/

/-- C3: when the reconciliation diff Δ contains more than one new identity,
`register_script` persists exactly one identity taken from Δ (the arbitrary
`set.pop()` choice) as the RegistrationRecord, and the corruption warning is
emitted if and only if |Δ| > 1 — never when |Δ| is 0 or 1. -/
theorem c3_ambiguous_diff_warning_iff (cfg : Config) (fs : FileSys)
    (env : RemoteEnv) (st : Store) (p : FPath) (ub : Bool) (content : String)
    (pre post : List DumpEntry) (r : String) (ds : List RegId)
    (hfile : fsRead fs p = some content) (hne : ¬ content = "")
    (hpre : (unregister_script cfg env.unregRemote st p).err = none)
    (hd1 : env.dump1 = Except.ok pre) (hpy : env.pyexec = Except.ok r)
    (hd2 : env.dump2 = Except.ok post)
    (hdiff : setDiff (pySet (post.map Prod.snd)) (pySet (pre.map Prod.snd))
      = ds)
    (hpop : ds ≠ [] → env.pop ds ∈ ds) :
    ((⟨LogLevel.warning, LogTag.corruptWarning⟩ : LogEntry) ∈
        (register_script cfg fs env st p ub).logs ↔ 1 < ds.length) ∧
    (1 < ds.length →
      env.pop ds ∈ ds ∧
      storeGet (register_script cfg fs env st p ub).store (reg_key cfg p)
        = some ⟨env.pop ds, env.now⟩) := by
  cases ds with
  | nil =>
      refine ⟨⟨fun hmem => ?_, fun hlen => absurd hlen (by simp)⟩,
        fun hlen => absurd hlen (by simp)⟩
      simp [register_script, hfile, hne, hpre, reconcile, hd1, hpy, hd2,
        hdiff] at hmem
      exact absurd hmem (unregister_no_corrupt_warning cfg env.unregRemote st p)
  | cons a t =>
      cases t with
      | nil =>
          refine ⟨⟨fun hmem => ?_, fun hlen => absurd hlen (by simp)⟩,
            fun hlen => absurd hlen (by simp)⟩
          simp [register_script, hfile, hne, hpre, reconcile, hd1, hpy, hd2,
            hdiff] at hmem
          exact absurd hmem
            (unregister_no_corrupt_warning cfg env.unregRemote st p)
      | cons b t2 =>
          have hlen : 1 < (a :: b :: t2).length := by
            simp only [List.length_cons]
            omega
          refine ⟨⟨fun _ => hlen, fun _ => ?_⟩,
            fun _ => ⟨hpop (by simp), ?_⟩⟩
          · simp [register_script, hfile, hne, hpre, reconcile, hd1, hpy,
              hd2, hdiff]
          · simp [register_script, hfile, hne, hpre, reconcile, hd1, hpy,
              hd2, hdiff, storeGet_storeSet_self]

theorem c3_witness :
    (((⟨LogLevel.warning, LogTag.corruptWarning⟩ : LogEntry) ∈
        (register_script cfgW [("a.py", "body")]
          (envW [] [((), "idA"), ((), "idB")]) [] "a.py" false).logs ↔
      1 < (["idA", "idB"] : List RegId).length) ∧
     (1 < (["idA", "idB"] : List RegId).length →
      (envW [] [((), "idA"), ((), "idB")]).pop ["idA", "idB"] ∈
        (["idA", "idB"] : List RegId) ∧
      storeGet (register_script cfgW [("a.py", "body")]
          (envW [] [((), "idA"), ((), "idB")]) [] "a.py" false).store
        (reg_key cfgW "a.py")
        = some ⟨(envW [] [((), "idA"), ((), "idB")]).pop ["idA", "idB"],
            (envW [] [((), "idA"), ((), "idB")]).now⟩)) :=
  c3_ambiguous_diff_warning_iff cfgW [("a.py", "body")]
    (envW [] [((), "idA"), ((), "idB")]) [] "a.py" false "body"
    [] [((), "idA"), ((), "idB")] "0" ["idA", "idB"]
    rfl (by decide) rfl rfl rfl rfl rfl (fun _ => by decide)

/-! ### Claim C4 -/

/-- C4: when the reconciliation diff Δ is empty, `register_script` writes no
RegistrationRecord — no `hset` call is issued and no record exists for the
path afterwards — and every log record of the run is at debug level. -/
theorem c4_empty_diff_no_record_debug_only (cfg : Config) (fs : FileSys)
    (env : RemoteEnv) (st : Store) (p : FPath) (ub : Bool) (content : String)
    (pre post : List DumpEntry) (r : String)
    (hfile : fsRead fs p = some content) (hne : ¬ content = "")
    (hremote : ∀ id, env.unregRemote id = Except.ok ())
    (hd1 : env.dump1 = Except.ok pre) (hpy : env.pyexec = Except.ok r)
    (hd2 : env.dump2 = Except.ok post)
    (hdiff : setDiff (pySet (post.map Prod.snd)) (pySet (pre.map Prod.snd))
      = []) :
    (register_script cfg fs env st p ub).err = none ∧
    storeGet (register_script cfg fs env st p ub).store (reg_key cfg p)
      = none ∧
    (∀ c ∈ (register_script cfg fs env st p ub).calls, isHset c = false) ∧
    (∀ e ∈ (register_script cfg fs env st p ub).logs,
      e.level = LogLevel.debug) := by
  have hok : ∀ id m, env.unregRemote id ≠ Except.error (PyExc.otherError m) :=
    fun id m => by
      rw [hremote id]
      exact fun h => Except.noConfusion h
  have hpre := unregister_err_none_of_no_other cfg env.unregRemote st p hok
  refine ⟨?_, ?_, ?_, ?_⟩
  · simp [register_script, hfile, hne, hpre, reconcile, hd1, hpy, hd2, hdiff]
  · have hstore := unregister_store_of_err_none cfg env.unregRemote st p hpre
    simp [register_script, hfile, hne, hpre, reconcile, hd1, hpy, hd2, hdiff,
      hstore]
  · intro c hc
    simp [register_script, hfile, hne, hpre, reconcile, hd1, hpy, hd2,
      hdiff] at hc
    rcases hc with h | h | h | h
    · exact unregister_calls_no_hset cfg env.unregRemote st p c h
    · simp [h, isHset]
    · simp [h, isHset]
    · simp [h, isHset]
  · intro e he
    simp [register_script, hfile, hne, hpre, reconcile, hd1, hpy, hd2,
      hdiff] at he
    rcases he with h | h | h | h | h | h
    · simp [h]
    · exact unregister_logs_debug_of_ok cfg env.unregRemote st p hremote e h
    · simp [h]
    · simp [h]
    · simp [h]
    · simp [h]

theorem c4_witness :
    (register_script cfgW [("a.py", "body")] (envW [((), "id1")] [((), "id1")])
        [] "a.py" false).err = none ∧
    storeGet (register_script cfgW [("a.py", "body")]
        (envW [((), "id1")] [((), "id1")]) [] "a.py" false).store
      (reg_key cfgW "a.py") = none ∧
    (∀ c ∈ (register_script cfgW [("a.py", "body")]
        (envW [((), "id1")] [((), "id1")]) [] "a.py" false).calls,
      isHset c = false) ∧
    (∀ e ∈ (register_script cfgW [("a.py", "body")]
        (envW [((), "id1")] [((), "id1")]) [] "a.py" false).logs,
      e.level = LogLevel.debug) :=
  c4_empty_diff_no_record_debug_only cfgW [("a.py", "body")]
    (envW [((), "id1")] [((), "id1")]) [] "a.py" false "body"
    [((), "id1")] [((), "id1")] "0"
    rfl (by decide) (fun _ => rfl) rfl rfl rfl rfl

/-! ### Claim C10 -/

/-- C10: for a path that passes the file validation, if any remote call of
the reconciliation phase — first snapshot, execute, or second snapshot —
raises, then after `register_script` returns (normally: the exception is
caught) no RegistrationRecord exists for the path: the pre-clean unregister
has already deleted any previous record and the persistence `hset` is never
issued. -/
theorem c10_failed_register_leaves_no_stale_record (cfg : Config)
    (fs : FileSys) (env : RemoteEnv) (st : Store) (p : FPath) (ub : Bool)
    (content : String)
    (hfile : fsRead fs p = some content) (hne : ¬ content = "")
    (hpre : (unregister_script cfg env.unregRemote st p).err = none)
    (hfail : (∃ e, env.dump1 = Except.error e) ∨
      (∃ e, env.pyexec = Except.error e) ∨
      (∃ e, env.dump2 = Except.error e)) :
    (register_script cfg fs env st p ub).err = none ∧
    storeGet (register_script cfg fs env st p ub).store (reg_key cfg p)
      = none ∧
    (∀ c ∈ (register_script cfg fs env st p ub).calls, isHset c = false) := by
  have hstore := unregister_store_of_err_none cfg env.unregRemote st p hpre
  have hnoh := unregister_calls_no_hset cfg env.unregRemote st p
  rcases hfail with ⟨e1, he1⟩ | ⟨e2, he2⟩ | ⟨e3, he3⟩
  · refine ⟨?_, ?_, ?_⟩
    · simp [register_script, hfile, hne, hpre, reconcile, he1]
    · simp [register_script, hfile, hne, hpre, reconcile, he1, hstore]
    · intro c hc
      simp [register_script, hfile, hne, hpre, reconcile, he1] at hc
      rcases hc with h | h
      · exact hnoh c h
      · simp [h, isHset]
  · cases hd1 : env.dump1 with
    | error e1 =>
        refine ⟨?_, ?_, ?_⟩
        · simp [register_script, hfile, hne, hpre, reconcile, hd1]
        · simp [register_script, hfile, hne, hpre, reconcile, hd1, hstore]
        · intro c hc
          simp [register_script, hfile, hne, hpre, reconcile, hd1] at hc
          rcases hc with h | h
          · exact hnoh c h
          · simp [h, isHset]
    | ok pre =>
        refine ⟨?_, ?_, ?_⟩
        · simp [register_script, hfile, hne, hpre, reconcile, hd1, he2]
        · simp [register_script, hfile, hne, hpre, reconcile, hd1, he2,
            hstore]
        · intro c hc
          simp [register_script, hfile, hne, hpre, reconcile, hd1, he2] at hc
          rcases hc with h | h | h
          · exact hnoh c h
          · simp [h, isHset]
          · simp [h, isHset]
  · cases hd1 : env.dump1 with
    | error e1 =>
        refine ⟨?_, ?_, ?_⟩
        · simp [register_script, hfile, hne, hpre, reconcile, hd1]
        · simp [register_script, hfile, hne, hpre, reconcile, hd1, hstore]
        · intro c hc
          simp [register_script, hfile, hne, hpre, reconcile, hd1] at hc
          rcases hc with h | h
          · exact hnoh c h
          · simp [h, isHset]
    | ok pre =>
        cases hpy : env.pyexec with
        | error e2 =>
            refine ⟨?_, ?_, ?_⟩
            · simp [register_script, hfile, hne, hpre, reconcile, hd1, hpy]
            · simp [register_script, hfile, hne, hpre, reconcile, hd1, hpy,
                hstore]
            · intro c hc
              simp [register_script, hfile, hne, hpre, reconcile, hd1,
                hpy] at hc
              rcases hc with h | h | h
              · exact hnoh c h
              · simp [h, isHset]
              · simp [h, isHset]
        | ok r =>
            refine ⟨?_, ?_, ?_⟩
            · simp [register_script, hfile, hne, hpre, reconcile, hd1, hpy,
                he3]
            · simp [register_script, hfile, hne, hpre, reconcile, hd1, hpy,
                he3, hstore]
            · intro c hc
              simp [register_script, hfile, hne, hpre, reconcile, hd1, hpy,
                he3] at hc
              rcases hc with h | h | h | h
              · exact hnoh c h
              · simp [h, isHset]
              · simp [h, isHset]
              · simp [h, isHset]

theorem c10_witness :
    (register_script cfgW [("a.py", "body")]
        { unregRemote := fun _ => Except.ok ()
          dump1 := Except.ok [((), "id1")]
          pyexec := Except.error (PyExc.otherError "connection reset")
          dump2 := Except.ok [((), "id1"), ((), "id2")]
          pop := fun l => l.headD ""
          now := "t0" }
        [("/redgrease/scriptsa.py", ⟨"idOld", "t"⟩)] "a.py" false).err
      = none ∧
    storeGet (register_script cfgW [("a.py", "body")]
        { unregRemote := fun _ => Except.ok ()
          dump1 := Except.ok [((), "id1")]
          pyexec := Except.error (PyExc.otherError "connection reset")
          dump2 := Except.ok [((), "id1"), ((), "id2")]
          pop := fun l => l.headD ""
          now := "t0" }
        [("/redgrease/scriptsa.py", ⟨"idOld", "t"⟩)] "a.py" false).store
      (reg_key cfgW "a.py") = none ∧
    (∀ c ∈ (register_script cfgW [("a.py", "body")]
        { unregRemote := fun _ => Except.ok ()
          dump1 := Except.ok [((), "id1")]
          pyexec := Except.error (PyExc.otherError "connection reset")
          dump2 := Except.ok [((), "id1"), ((), "id2")]
          pop := fun l => l.headD ""
          now := "t0" }
        [("/redgrease/scriptsa.py", ⟨"idOld", "t"⟩)] "a.py" false).calls,
      isHset c = false) :=
  c10_failed_register_leaves_no_stale_record cfgW [("a.py", "body")]
    { unregRemote := fun _ => Except.ok ()
      dump1 := Except.ok [((), "id1")]
      pyexec := Except.error (PyExc.otherError "connection reset")
      dump2 := Except.ok [((), "id1"), ((), "id2")]
      pop := fun l => l.headD ""
      now := "t0" }
    [("/redgrease/scriptsa.py", ⟨"idOld", "t"⟩)] "a.py" false "body"
    rfl (by decide) rfl
    (Or.inr (Or.inl ⟨PyExc.otherError "connection reset", rfl⟩))

/-! ### Claim C8 -/

/-- C8 counterexample: a `created` event on a path matching the script
pattern produces no signal at all — the source assigns only `on_deleted`,
`on_modified` and `on_moved` to the event handler, so `on_created` stays the
watchdog default no-op.  The claim's "modified or created" therefore fails
for `created`. -/
theorem c8_counterexample :
    fnmW "a.py" cfgW.script_pattern = true ∧
    classify cfgW fnmW (FsEvent.created "a.py") = [] ∧
    ("a.py", Action.register) ∉ classify cfgW fnmW (FsEvent.created "a.py") := by
  refine ⟨by decide, by decide, ?_⟩
  intro hmem
  simp [classify, dispatchAllowed, eventPaths, fnmW, cfgW] at hmem

/-- C8 (amended): a `modified` event whose path matches the configured
script pattern (and no ignore pattern) signals exactly `(path, register)` to
the debounce index; a `created` event produces no signal, because no
`on_created` handler is attached. -/
theorem c8_modified_signals_register_created_ignored (cfg : Config)
    (fnm : String → String → Bool) (file : String)
    (hs : fnm file cfg.script_pattern = true)
    (hig : ∀ pat ∈ cfg.ignore, fnm file pat = false) :
    classify cfg fnm (FsEvent.modified file) = [(file, Action.register)] ∧
    classify cfg fnm (FsEvent.created file) = [] := by
  have hany : cfg.ignore.any (fun pat => fnm file pat) = false :=
    List.any_eq_false.mpr (fun pat hp => by simp [hig pat hp])
  constructor
  · simp [classify, dispatchAllowed, eventPaths, on_modified, hs, hany]
  · simp [classify, dispatchAllowed, eventPaths, hs, hany]

theorem c8_witness :
    classify cfgW fnmW (FsEvent.modified "a.py")
      = [("a.py", Action.register)] ∧
    classify cfgW fnmW (FsEvent.created "a.py") = [] :=
  c8_modified_signals_register_created_ignored cfgW fnmW "a.py"
    (by decide) (by decide)

/-! ### Claim C9 -/

/-- C9: a `moved` event whose source path matches the script pattern and
whose destination path matches neither pattern produces exactly one signal:
an unregister keyed on the source path; no signal of any kind for the
destination path. -/
theorem c9_moved_script_to_unmatched (cfg : Config)
    (fnm : String → String → Bool) (old_file new_file : String)
    (hso : fnm old_file cfg.script_pattern = true)
    (hns : fnm new_file cfg.script_pattern = false)
    (hnr : fnm new_file cfg.requirements_pattern = false)
    (higo : ∀ pat ∈ cfg.ignore, fnm old_file pat = false)
    (hign : ∀ pat ∈ cfg.ignore, fnm new_file pat = false) :
    classify cfg fnm (FsEvent.moved old_file new_file)
      = [(old_file, Action.unregister)] := by
  have hanyo : cfg.ignore.any (fun pat => fnm old_file pat) = false :=
    List.any_eq_false.mpr (fun pat hp => by simp [higo pat hp])
  have hanyn : cfg.ignore.any (fun pat => fnm new_file pat) = false :=
    List.any_eq_false.mpr (fun pat hp => by simp [hign pat hp])
  simp [classify, dispatchAllowed, eventPaths, on_moved, hso, hns, hnr,
    hanyo, hanyn]

theorem c9_witness :
    classify cfgW fnmW (FsEvent.moved "old.py" "new.txt")
      = [("old.py", Action.unregister)] :=
  c9_moved_script_to_unmatched cfgW fnmW "old.py" "new.txt"
    (by decide) (by decide) (by decide) (by decide) (by decide)

/-! ### Claim C2 -/

theorem debounce_foldl_single_key {α : Type} (D : Nat) (k : String)
    (t0 : Nat) (rest : List (SignalEv α)) :
    ∀ (t : Nat) (p : α), t0 ≤ t →
      (∀ e ∈ rest, e.key = k ∧ t0 ≤ e.time ∧ e.time < t0 + D) →
      rest.foldl (signalStep D) ⟨[(k, t + D, p)], []⟩
        = ⟨[(k, (rest.getLastD ⟨t, k, p⟩).time + D,
              (rest.getLastD ⟨t, k, p⟩).payload)], []⟩ := by
  induction rest with
  | nil => intro t p ht hall; rfl
  | cons e rest ih =>
      intro t p ht hall
      obtain ⟨hkey, helo, hehi⟩ := hall _ (List.mem_cons_self _ _)
      have h1 : ¬ (t + D ≤ e.time) := by omega
      have hstep : signalStep D ⟨[(k, t + D, p)], []⟩ e
          = ⟨[(k, e.time + D, e.payload)], []⟩ := by
        simp [signalStep, fireDue, h1, hkey]
      have he : (⟨e.time, k, e.payload⟩ : SignalEv α) = e := by
        obtain ⟨et, ek, ep⟩ := e
        have hkey2 : ek = k := hkey
        rw [hkey2]
      rw [List.foldl_cons, hstep, List.getLastD_cons,
        ih e.time e.payload helo
          (fun x hx => hall x (List.mem_cons_of_mem _ hx)), he]

/-- C2 (modelled from the spec, §4.1 of the specification; the
`HysteresisHandlerIndex` implementation is not among the sources): a burst
of N `signal` calls on one key, all falling inside a window shorter than the
hysteresis duration `D`, results in exactly one invocation, carrying the
payload (action and arguments) of the last call — each new signal cancels
and replaces the pending action, restarting the delay. -/
theorem c2_debounce_last_signal_wins {α : Type} (D : Nat) (k : String)
    (e0 : SignalEv α) (rest : List (SignalEv α))
    (hkeys : ∀ e ∈ e0 :: rest, e.key = k)
    (hlo : ∀ e ∈ e0 :: rest, e0.time ≤ e.time)
    (hwin : ∀ e ∈ e0 :: rest, e.time < e0.time + D) :
    debounceRun D (e0 :: rest)
      = [(k, ((e0 :: rest).getLast (List.cons_ne_nil e0 rest)).payload)] := by
  obtain ⟨t0, k0, p0⟩ := e0
  have hk0 : k0 = k := hkeys _ (List.mem_cons_self _ _)
  subst hk0
  have hstep0 : signalStep D ⟨[], []⟩ ⟨t0, k0, p0⟩
      = ⟨[(k0, t0 + D, p0)], []⟩ := by
    simp [signalStep, fireDue]
  have hall : ∀ e ∈ rest, e.key = k0 ∧ t0 ≤ e.time ∧ e.time < t0 + D :=
    fun e he => ⟨hkeys e (List.mem_cons_of_mem _ he),
      hlo e (List.mem_cons_of_mem _ he), hwin e (List.mem_cons_of_mem _ he)⟩
  unfold debounceRun
  rw [List.foldl_cons, hstep0,
    debounce_foldl_single_key D k0 t0 rest t0 p0 (Nat.le_refl t0) hall,
    List.getLast_eq_getLastD]
  simp [debounceFinish]

theorem c2_witness :
    debounceRun 5 [(⟨0, "a.py", 10⟩ : SignalEv Nat), ⟨1, "a.py", 20⟩,
        ⟨2, "a.py", 30⟩]
      = [("a.py", 30)] :=
  (c2_debounce_last_signal_wins 5 "a.py" ⟨0, "a.py", 10⟩
    [⟨1, "a.py", 20⟩, ⟨2, "a.py", 30⟩]
    (by decide) (by decide) (by decide)).trans (by rfl)

end Redgrease
